import Mathlib

/-!
Verification of `examples/new_actions.py` and
`habitat-baselines/habitat_baselines/config/default_structured_configs.py`
from the habitat-lab repository, as a shallow embedding in Lean 4.

Python floats are modelled as real numbers (or rationals where the file
only manipulates decimal literals); `np.random.uniform(low, high)` is
modelled by its documented semantics `low + (high - low) * u` for a draw
`u ∈ [0, 1)`; numpy/Magnum vectors are functions `Fin 3 → ℝ`; quaternions
are Mathlib's `Quaternion ℝ`; Python dicts are modelled as functions to
`Option`.
-/

noncomputable section

/-- 3-component float vector (numpy array of shape (3,)). -/
abbrev Vec3 : Type := Fin 3 → ℝ

/-- `habitat_sim.geo.FRONT = np.array([0.0, 0.0, -1.0])`. -/
def FRONT : Vec3 := ![0, 0, -1]

/-- `habitat_sim.geo.UP = np.array([0.0, 1.0, 0.0])`. -/
def UP : Vec3 := ![0, 1, 0]

/-- `np.deg2rad(x) = x * pi / 180`. -/
def deg2rad (x : ℝ) : ℝ := x * (Real.pi / 180)

/-- `np.random.uniform(low, high)` returns `low + (high - low) * u` where
`u` is the underlying draw from `[0, 1)`. -/
def uniformDraw (low high u : ℝ) : ℝ := low + (high - low) * u

/-- `habitat_sim.utils.quat_from_angle_axis(theta, axis)`:
the quaternion `cos(theta/2) + sin(theta/2) * axis`. -/
def quat_from_angle_axis (theta : ℝ) (axis : Vec3) : Quaternion ℝ :=
  ⟨Real.cos (theta / 2), Real.sin (theta / 2) * axis 0,
   Real.sin (theta / 2) * axis 1, Real.sin (theta / 2) * axis 2⟩

/-- A pure-imaginary quaternion `np.quaternion(0, *v)` built from a vector. -/
def quatOfVec (w : Vec3) : Quaternion ℝ := ⟨0, w 0, w 1, w 2⟩

/-- `habitat_sim.utils.quat_rotate_vector(q, v) = (q * quat(0,*v) * q.inverse()).imag`. -/
def quat_rotate_vector (q : Quaternion ℝ) (w : Vec3) : Vec3 :=
  let p := q * quatOfVec w * q⁻¹
  ![p.imI, p.imJ, p.imK]

/-- A habitat-sim scene node: a local transformation (rotation matrix,
per-axis scaling, translation) under a parent whose absolute transformation
has rotation-scaling block `parentRS` and translation `parentT`. -/
structure SceneNode where
  parentRS : Matrix (Fin 3) (Fin 3) ℝ
  parentT : Vec3
  rotation : Matrix (Fin 3) (Fin 3) ℝ
  scaling : Vec3
  translation : Vec3

/-- The 3×3 rotation-scaling block of the node's local transformation. -/
def SceneNode.localRS (n : SceneNode) : Matrix (Fin 3) (Fin 3) ℝ :=
  n.rotation * Matrix.diagonal n.scaling

/-- `scene_node.absolute_transformation().rotation_scaling()`: translations
do not enter the 3×3 block, which is the product of the parent's block and
the local block. -/
def SceneNode.absoluteRotationScaling (n : SceneNode) : Matrix (Fin 3) (Fin 3) ℝ :=
  n.parentRS * n.localRS

/-- Magnum `SceneNode.translate_local(v)`: right-multiplying the local
transformation by a translation adds `localRS · v` to the local translation
and changes nothing else. -/
def SceneNode.translate_local (n : SceneNode) (v : Vec3) : SceneNode :=
  { n with translation := n.translation + n.localRS.mulVec v }

/-- `NoisyStrafeActuationSpec` (attrs dataclass), with its declared
defaults `strafe_angle = 90.0`, `noise_amount = 0.05`. -/
structure NoisyStrafeActuationSpec where
  move_amount : ℝ
  strafe_angle : ℝ := 90.0
  noise_amount : ℝ := 0.05

/-- Lines 94-97 of `new_actions.py`: the strafe angle is converted to
radians and then redrawn uniformly between `(1 - noise) * angle` and
`(1 + noise) * angle`; `u` is the underlying `[0,1)` draw. -/
def perturbAngle (strafe_angle noise_amount u : ℝ) : ℝ :=
  uniformDraw ((1 - noise_amount) * deg2rad strafe_angle)
    ((1 + noise_amount) * deg2rad strafe_angle) u

/-- Lines 104-106 of `new_actions.py`: the move amount is redrawn uniformly
between `(1 - noise) * move_amount` and `(1 + noise) * move_amount`;
`v` is the underlying `[0,1)` draw. -/
def perturbMove (move_amount noise_amount v : ℝ) : ℝ :=
  uniformDraw ((1 - noise_amount) * move_amount)
    ((1 + noise_amount) * move_amount) v

/-- `_strafe_impl(scene_node, move_amount, strafe_angle, noise_amount)`,
with the two hidden uniform draws made explicit as `u` (angle) and
`v` (distance). -/
def strafe_impl (scene_node : SceneNode)
    (move_amount strafe_angle noise_amount u v : ℝ) : SceneNode :=
  let forward_ax := scene_node.absoluteRotationScaling.mulVec FRONT
  let angle := perturbAngle strafe_angle noise_amount u
  let rot := quat_from_angle_axis angle UP
  let move_ax := quat_rotate_vector rot forward_ax
  let amount := perturbMove move_amount noise_amount v
  scene_node.translate_local (amount • move_ax)

/-- `NoisyStrafeLeft.__call__`: delegates to `_strafe_impl` with the spec's
`move_amount`, `strafe_angle` and `noise_amount`. -/
def NoisyStrafeLeft_call (scene_node : SceneNode)
    (actuation_spec : NoisyStrafeActuationSpec) (u v : ℝ) : SceneNode :=
  strafe_impl scene_node actuation_spec.move_amount
    actuation_spec.strafe_angle actuation_spec.noise_amount u v

/-- `NoisyStrafeRight.__call__`: delegates to `_strafe_impl` with the
NEGATED `strafe_angle`. -/
def NoisyStrafeRight_call (scene_node : SceneNode)
    (actuation_spec : NoisyStrafeActuationSpec) (u v : ℝ) : SceneNode :=
  strafe_impl scene_node actuation_spec.move_amount
    (-actuation_spec.strafe_angle) actuation_spec.noise_amount u v

/-- The spec's reading of the actuation: perturb the move distance and the
turn angle by independent uniform multiplicative factors in `[1-n, 1+n]`,
rotate the forward-facing vector by the perturbed angle around the vertical
axis, and translate the scene node by the perturbed distance along that
vector. -/
def strafeSpecFormula (scene_node : SceneNode)
    (move_amount strafe_angle noise_amount u v : ℝ) : SceneNode :=
  let forward := scene_node.absoluteRotationScaling.mulVec FRONT
  let angleFactor := uniformDraw (1 - noise_amount) (1 + noise_amount) u
  let distFactor := uniformDraw (1 - noise_amount) (1 + noise_amount) v
  scene_node.translate_local ((distFactor * move_amount) •
    quat_rotate_vector
      (quat_from_angle_axis (angleFactor * deg2rad strafe_angle) UP) forward)

/-- The actuation value carried by a `habitat_sim.ActionSpec`: either the
file's `NoisyStrafeActuationSpec` or some actuation owned by another action
(e.g. the parent action space configuration's entries). -/
inductive ActuationValue where
  | noisyStrafe (s : NoisyStrafeActuationSpec)
  | foreign (tag : String)

/-- `habitat_sim.ActionSpec(name, actuation)`. -/
structure ActionSpec where
  name : String
  actuation : ActuationValue

/-- An action space configuration mapping (a Python dict keyed by the
`HabitatSimActions` entries, here identified by their names). -/
abbrev ActionSpaceConfig : Type := String → Option ActionSpec

/-- Python dict assignment `config[k] = v`. -/
def dictSet (c : ActionSpaceConfig) (k : String) (v : ActionSpec) :
    ActionSpaceConfig :=
  fun q => if q = k then some v else c q

/-- `NoNoiseStrafe.get`: starts from `super().get()` (the inherited
`HabitatSimV1ActionSpaceConfiguration` mapping, abstracted here as
`parent`) and assigns the two strafe keys with `noise_amount = 0.0`. -/
def NoNoiseStrafe_get (parent : ActionSpaceConfig) : ActionSpaceConfig :=
  dictSet
    (dictSet parent "STRAFE_LEFT"
      ⟨"noisy_strafe_left", .noisyStrafe { move_amount := 0.25, noise_amount := 0.0 }⟩)
    "STRAFE_RIGHT"
    ⟨"noisy_strafe_right", .noisyStrafe { move_amount := 0.25, noise_amount := 0.0 }⟩

/-- `NoiseStrafe.get`: same as `NoNoiseStrafe.get` but the two strafe keys
are assigned specs with `noise_amount = 0.05`. -/
def NoiseStrafe_get (parent : ActionSpaceConfig) : ActionSpaceConfig :=
  dictSet
    (dictSet parent "STRAFE_LEFT"
      ⟨"noisy_strafe_left", .noisyStrafe { move_amount := 0.25, noise_amount := 0.05 }⟩)
    "STRAFE_RIGHT"
    ⟨"noisy_strafe_right", .noisyStrafe { move_amount := 0.25, noise_amount := 0.05 }⟩

end

/-! ## `default_structured_configs.py` -/

/-- The schema dataclasses that appear as the `node` argument of a
`cs.store(...)` call in `default_structured_configs.py`. -/
inductive SchemaNode where
  | CenterCropperConfig
  | ResizeShortestEdgeConfig
  | Cube2EqConfig
  | Cube2FishConfig
  | AddVirtualKeysConfig
  | Eq2CubeConfig
  | PolicyConfig
  | CPCALossConfig
  | HabitatBaselinesConfig
deriving DecidableEq

/-- One `cs.store(group=..., name=..., node=...)` call. -/
structure StoreEntry where
  group : String
  name : String
  node : SchemaNode
deriving DecidableEq

/-- The nine `cs.store` calls of `default_structured_configs.py`, in source
order. Note the fifth call (group `.../add_virtual_keys`) passes
`node=Cube2FishConfig` in the source. -/
def configStoreEntries : List StoreEntry :=
  [⟨"habitat_baselines/rl/policy/obs_transforms/center_cropper",
     "center_cropper_base", .CenterCropperConfig⟩,
   ⟨"habitat_baselines/rl/policy/obs_transforms/resize_shortest_edge",
     "resize_shortest_edge_base", .ResizeShortestEdgeConfig⟩,
   ⟨"habitat_baselines/rl/policy/obs_transforms/cube_2_eq",
     "cube_2_eq_base", .Cube2EqConfig⟩,
   ⟨"habitat_baselines/rl/policy/obs_transforms/cube_2_fish",
     "cube_2_fish_base", .Cube2FishConfig⟩,
   ⟨"habitat_baselines/rl/policy/obs_transforms/add_virtual_keys",
     "add_virtual_keys_base", .Cube2FishConfig⟩,
   ⟨"habitat_baselines/rl/policy/obs_transforms/eq_2_cube",
     "eq_2_cube_base", .Eq2CubeConfig⟩,
   ⟨"habitat_baselines", "habitat_baselines_config_base",
     .HabitatBaselinesConfig⟩,
   ⟨"habitat_baselines/rl/policy", "policy_base", .PolicyConfig⟩,
   ⟨"habitat_baselines/rl/auxiliary_losses/cpca", "cpca_loss_base",
     .CPCALossConfig⟩]

/-- Looking a (group, name) pair up in the configuration store after all
`cs.store` calls ran; a later call to the same pair overwrites an earlier
one. -/
def storeLookup (g n : String) : Option SchemaNode :=
  (configStoreEntries.reverse.find?
    (fun e => e.group == g && e.name == n)).map StoreEntry.node

/-- The class-body assignments of `ORBSLAMConfig` in source order, each
tagged with whether it carries a type annotation. Only `h_obstacle_max`
(written `h_obstacle_max = 1.0 * 1.25`) is unannotated. -/
def ORBSLAMClassBody : List (String × Bool) :=
  [("slam_vocab_path", true), ("slam_settings_path", true),
   ("map_cell_size", true), ("map_size", true), ("camera_height", true),
   ("beta", true), ("h_obstacle_min", true), ("h_obstacle_max", false),
   ("d_obstacle_min", true), ("d_obstacle_max", true),
   ("preprocess_map", true), ("min_pts_in_obstacle", true),
   ("angle_th", true), ("dist_reached_th", true),
   ("next_waypoint_th", true), ("num_actions", true),
   ("dist_to_stop", true), ("planner_max_steps", true),
   ("depth_denorm", true)]

/-- Python dataclass semantics: only the annotated class-body assignments
become dataclass fields (and hence fields of the registered schema). -/
def dataclassFieldNames (body : List (String × Bool)) : List String :=
  (body.filter (fun a => a.2)).map (fun a => a.1)

/-- `WBConfig` with its declared defaults. -/
structure WBConfig where
  project_name : String := ""
  entity : String := ""
  group : String := ""
  run_name : String := ""

/-- `EvalConfig` with its declared defaults. -/
structure EvalConfig where
  split : String := "val"
  should_load_ckpt : Bool := true
  evals_per_ep : Int := 1
  video_option : List String := []

/-- `PreemptionConfig` with its declared defaults. -/
structure PreemptionConfig where
  append_slurm_job_id : Bool := false
  save_resume_state_interval : Int := 100
  save_state_batch_only : Bool := false

/-- `ActionDistributionConfig` with its declared defaults. -/
structure ActionDistributionConfig where
  use_log_std : Bool := true
  use_softplus : Bool := false
  log_std_init : ℚ := 0.0
  use_std_param : Bool := false
  clamp_std : Bool := true
  min_std : ℚ := 1e-6
  max_std : Int := 1
  min_log_std : Int := -5
  max_log_std : Int := 2
  action_activation : String := "tanh"
  scheduled_std : Bool := false

/-- `PolicyConfig` with its declared defaults; the `obs_transforms` dict
(of type `Dict[str, Dict[str, Any]]`, default `{}`) is modelled as an
association list with opaquely stringified values. -/
structure PolicyConfig where
  name : String := "PointNavResNetPolicy"
  action_distribution_type : String := "categorical"
  action_dist : ActionDistributionConfig := {}
  obs_transforms : List (String × String) := []

/-- `PPOConfig` with its declared defaults. -/
structure PPOConfig where
  clip_param : ℚ := 0.2
  ppo_epoch : Int := 4
  num_mini_batch : Int := 2
  value_loss_coef : ℚ := 0.5
  entropy_coef : ℚ := 0.01
  lr : ℚ := 2.5e-4
  eps : ℚ := 1e-5
  max_grad_norm : ℚ := 0.5
  num_steps : Int := 5
  use_gae : Bool := true
  use_linear_lr_decay : Bool := false
  use_linear_clip_decay : Bool := false
  gamma : ℚ := 0.99
  tau : ℚ := 0.95
  reward_window_size : Int := 50
  use_normalized_advantage : Bool := false
  hidden_size : Int := 512
  entropy_target_factor : ℚ := 0.0
  use_adaptive_entropy_pen : Bool := false
  use_clipped_value_loss : Bool := true
  use_double_buffered_sampler : Bool := false

/-- `VERConfig` with its declared defaults. -/
structure VERConfig where
  variable_experience : Bool := true
  num_inference_workers : Int := 2
  overlap_rollouts_and_learn : Bool := false

/-- `TmpAuxLossConfig` with its declared default. -/
structure TmpAuxLossConfig where
  enabled : List String := []

/-- `CPCALossConfig` with its declared defaults. -/
structure CPCALossConfig where
  k : Int := 20
  time_subsample : Int := 6
  future_subsample : Int := 2
  loss_scale : ℚ := 0.1

/-- `DDPPOConfig` with its declared defaults. -/
structure DDPPOConfig where
  sync_frac : ℚ := 0.6
  distrib_backend : String := "GLOO"
  rnn_type : String := "GRU"
  num_recurrent_layers : Int := 1
  backbone : String := "resnet18"
  pretrained_weights : String := "data/ddppo-models/gibson-2plus-resnet50.pth"
  pretrained : Bool := false
  pretrained_encoder : Bool := false
  train_encoder : Bool := true
  reset_critic : Bool := true
  force_distributed : Bool := false

/-- `RLConfig` with its declared (nested default-constructed) defaults. -/
structure RLConfig where
  preemption : PreemptionConfig := {}
  policy : PolicyConfig := {}
  ppo : PPOConfig := {}
  ver : VERConfig := {}
  auxiliary_losses : TmpAuxLossConfig := {}
  ddppo : DDPPOConfig := {}

/-- `ProfilingConfig` with its declared defaults. -/
structure ProfilingConfig where
  capture_start_step : Int := -1
  num_steps_to_capture : Int := -1

/-- An omegaconf `II(key)` interpolation placeholder. -/
structure Interp where
  key : String
deriving DecidableEq

/-- omegaconf's `II`. -/
def II (s : String) : Interp := ⟨s⟩

/-- `math.radians(x) = x * (pi / 180)`. -/
noncomputable def math.radians (x : ℝ) : ℝ := x * (Real.pi / 180)

/-- `ORBSLAMConfig` with its declared defaults. The unannotated class-body
assignment `h_obstacle_max = 1.0 * 1.25` is not a dataclass field and hence
not a field here (see `ORBSLAMClassBody`). -/
structure ORBSLAMConfig where
  slam_vocab_path : String := "habitat_baselines/slambased/data/ORBvoc.txt"
  slam_settings_path : String := "habitat_baselines/slambased/data/mp3d3_small1k.yaml"
  map_cell_size : ℝ := 0.1
  map_size : Int := 40
  camera_height : Interp := II "habitat.simulator.depth_sensor.position[1]"
  beta : Int := 100
  h_obstacle_min : ℝ := 0.3 * 1.25
  d_obstacle_min : ℝ := 0.1
  d_obstacle_max : ℝ := 4.0
  preprocess_map : Bool := true
  min_pts_in_obstacle : ℝ := 640 / 2.0
  angle_th : ℝ := math.radians 15
  dist_reached_th : ℝ := 0.15
  next_waypoint_th : ℝ := 0.5
  num_actions : Int := 3
  dist_to_stop : ℝ := 0.05
  planner_max_steps : Int := 500
  depth_denorm : Interp := II "habitat.simulator.depth_sensor.max_depth"

/-- `HabitatBaselinesConfig` with its declared defaults. -/
structure HabitatBaselinesConfig where
  cmd_trailing_opts : List String := []
  trainer_name : String := "ppo"
  torch_gpu_id : Int := 0
  video_render_views : List String := []
  tensorboard_dir : String := "tb"
  writer_type : String := "tb"
  video_dir : String := "video_dir"
  video_fps : Int := 10
  test_episode_count : Int := -1
  eval_ckpt_path_dir : String := "data/checkpoints"
  num_environments : Int := 16
  num_processes : Int := -1
  checkpoint_folder : String := "data/checkpoints"
  num_updates : Int := 10000
  num_checkpoints : Int := 10
  checkpoint_interval : Int := -1
  total_num_steps : ℚ := -1.0
  log_interval : Int := 10
  log_file : String := "train.log"
  force_blind_policy : Bool := false
  verbose : Bool := true
  eval_keys_to_include_in_name : List String := []
  force_torch_single_threaded : Bool := false
  wb : WBConfig := {}
  load_resume_state_config : Bool := true
  eval : EvalConfig := {}
  rl : RLConfig := {}
  orbslam2 : ORBSLAMConfig := {}
  profiling : ProfilingConfig := {}

/-- `PPOConfig()`: the default-constructed record. -/
def defaultPPOConfig : PPOConfig := {}

/-- `ORBSLAMConfig()`: the default-constructed record. -/
noncomputable def defaultORBSLAMConfig : ORBSLAMConfig := {}

/-- `HabitatBaselinesConfig()`: the default-constructed record. -/
noncomputable def defaultHabitatBaselinesConfig : HabitatBaselinesConfig := {}

/-- One entry appended by hydra's `ConfigSearchPath.append`. -/
structure SearchPathEntry where
  provider : String
  path : String
deriving DecidableEq

/-- `HabitatBaselinesConfigPlugin.manipulate_search_path`: appends the
package search path and does nothing else. -/
def manipulate_search_path (search_path : List SearchPathEntry) :
    List SearchPathEntry :=
  search_path ++ [⟨"habitat", "pkg://habitat_baselines/config/"⟩]

/-! ## Theorems -/

/-- Drawing uniformly from `[(1-n)·θ, (1+n)·θ]` is drawing a multiplicative
factor uniformly from `[1-n, 1+n]` and scaling `θ` by it. -/
theorem perturbAngle_factor (strafe_angle noise_amount u : ℝ) :
    perturbAngle strafe_angle noise_amount u =
      uniformDraw (1 - noise_amount) (1 + noise_amount) u *
        deg2rad strafe_angle := by
  unfold perturbAngle uniformDraw
  ring

/-- Same multiplicative-factor reading for the move amount. -/
theorem perturbMove_factor (move_amount noise_amount v : ℝ) :
    perturbMove move_amount noise_amount v =
      uniformDraw (1 - noise_amount) (1 + noise_amount) v * move_amount := by
  unfold perturbMove uniformDraw
  ring

/-- With zero noise the angle draw collapses to the unperturbed angle. -/
theorem perturbAngle_zero (strafe_angle u : ℝ) :
    perturbAngle strafe_angle 0 u = deg2rad strafe_angle := by
  unfold perturbAngle uniformDraw
  ring

/-- With zero noise the distance draw collapses to the unperturbed amount. -/
theorem perturbMove_zero (move_amount v : ℝ) :
    perturbMove move_amount 0 v = move_amount := by
  unfold perturbMove uniformDraw
  ring

/-- A uniform draw always lies between its two endpoints (numpy allows
`low > high`, in which case the sample lies in `(high, low]`). -/
theorem uniformDraw_between (bound1 bound2 u : ℝ) (hu0 : 0 ≤ u) (hu1 : u ≤ 1) :
    min bound1 bound2 ≤ uniformDraw bound1 bound2 u ∧
      uniformDraw bound1 bound2 u ≤ max bound1 bound2 := by
  unfold uniformDraw
  rcases le_total bound1 bound2 with h | h
  · rw [min_eq_left h, max_eq_right h]
    constructor
    · nlinarith
    · nlinarith
  · rw [min_eq_right h, max_eq_left h]
    constructor
    · nlinarith
    · nlinarith

/-- C1: for every move_amount `d`, strafe_angle `θ` and noise_amount `n`,
the strafe actuation perturbs the distance and the (radian) angle by two
independently drawn uniform multiplicative factors, so for every pair of
random draws the perturbed angle lies between `(1-n)·θ` and `(1+n)·θ`
(with `θ` converted to radians, as in the code) and the perturbed distance
lies between `(1-n)·d` and `(1+n)·d`. -/
theorem strafe_noise_band (d θ n u v : ℝ)
    (hu0 : 0 ≤ u) (hu1 : u < 1) (hv0 : 0 ≤ v) (hv1 : v < 1) :
    (min ((1 - n) * deg2rad θ) ((1 + n) * deg2rad θ) ≤ perturbAngle θ n u ∧
      perturbAngle θ n u ≤ max ((1 - n) * deg2rad θ) ((1 + n) * deg2rad θ)) ∧
    (min ((1 - n) * d) ((1 + n) * d) ≤ perturbMove d n v ∧
      perturbMove d n v ≤ max ((1 - n) * d) ((1 + n) * d)) :=
  ⟨uniformDraw_between ((1 - n) * deg2rad θ) ((1 + n) * deg2rad θ) u hu0 hu1.le,
   uniformDraw_between ((1 - n) * d) ((1 + n) * d) v hv0 hv1.le⟩

/-- Witness for C1 at `d = 1`, `θ = 0`, `n = 1/20`, draws `u = 1/2`,
`v = 1/3`. -/
theorem strafe_noise_band_witness :
    ((0:ℝ) ≤ 1/2 ∧ (1/2:ℝ) < 1 ∧ (0:ℝ) ≤ 1/3 ∧ (1/3:ℝ) < 1) ∧
    ((min ((1 - 1/20) * deg2rad 0) ((1 + 1/20) * deg2rad 0) ≤
        perturbAngle 0 (1/20) (1/2) ∧
      perturbAngle 0 (1/20) (1/2) ≤
        max ((1 - 1/20) * deg2rad 0) ((1 + 1/20) * deg2rad 0)) ∧
    (min ((1 - 1/20) * 1) ((1 + 1/20) * 1) ≤ perturbMove 1 (1/20) (1/3) ∧
      perturbMove 1 (1/20) (1/3) ≤ max ((1 - 1/20) * 1) ((1 + 1/20) * 1))) :=
  ⟨⟨by norm_num, by norm_num, by norm_num, by norm_num⟩,
   strafe_noise_band 1 0 (1/20) (1/2) (1/3)
     (by norm_num) (by norm_num) (by norm_num) (by norm_num)⟩

/-- C2: the strafe actuation computes the forward-facing vector as the
rotation-scaling part of the node's absolute transformation applied to
`FRONT`, rotates it by the perturbed angle (degrees converted to radians)
around `UP`, and translates the node locally by that vector scaled by the
perturbed distance; the left action passes `+strafe_angle` and the right
action `-strafe_angle` to the same implementation, and both agree with the
spec's multiplicative-noise formula. -/
theorem strafe_formula_correct (scene_node : SceneNode)
    (s : NoisyStrafeActuationSpec) (u v : ℝ) :
    NoisyStrafeLeft_call scene_node s u v =
        strafeSpecFormula scene_node s.move_amount s.strafe_angle
          s.noise_amount u v ∧
      NoisyStrafeRight_call scene_node s u v =
        strafeSpecFormula scene_node s.move_amount (-s.strafe_angle)
          s.noise_amount u v ∧
      ∀ d θ n, strafe_impl scene_node d θ n u v =
        scene_node.translate_local (perturbMove d n v •
          quat_rotate_vector (quat_from_angle_axis (perturbAngle θ n u) UP)
            (scene_node.absoluteRotationScaling.mulVec FRONT)) := by
  refine ⟨?_, ?_, fun d θ n => rfl⟩ <;>
    simp only [NoisyStrafeLeft_call, NoisyStrafeRight_call, strafe_impl,
      strafeSpecFormula, perturbAngle_factor, perturbMove_factor]

/-- C5: the strafe actuation mutates only the node's translation; its
rotation, scaling and parent transformation are untouched, and the result
differs from the input node in the translation field alone. -/
theorem strafe_only_translates (scene_node : SceneNode) (d θ n u v : ℝ) :
    (strafe_impl scene_node d θ n u v).rotation = scene_node.rotation ∧
    (strafe_impl scene_node d θ n u v).scaling = scene_node.scaling ∧
    (strafe_impl scene_node d θ n u v).parentRS = scene_node.parentRS ∧
    (strafe_impl scene_node d θ n u v).parentT = scene_node.parentT ∧
    strafe_impl scene_node d θ n u v =
      { scene_node with
          translation := (strafe_impl scene_node d θ n u v).translation } :=
  ⟨rfl, rfl, rfl, rfl, rfl⟩

/-- C8: with `noise_amount = 0` the strafe actuation is deterministic: any
two pairs of random draws give the same node, namely the node translated
locally by the unperturbed distance along the forward axis rotated by
exactly the unperturbed (radian) angle. -/
theorem strafe_noise_zero_deterministic (scene_node : SceneNode)
    (d θ u v u' v' : ℝ) :
    strafe_impl scene_node d θ 0 u v = strafe_impl scene_node d θ 0 u' v' ∧
    strafe_impl scene_node d θ 0 u v =
      scene_node.translate_local (d • quat_rotate_vector
        (quat_from_angle_axis (deg2rad θ) UP)
        (scene_node.absoluteRotationScaling.mulVec FRONT)) := by
  have h : ∀ w w' : ℝ, strafe_impl scene_node d θ 0 w w' =
      scene_node.translate_local (d • quat_rotate_vector
        (quat_from_angle_axis (deg2rad θ) UP)
        (scene_node.absoluteRotationScaling.mulVec FRONT)) := by
    intro w w'
    simp only [strafe_impl, perturbAngle_zero, perturbMove_zero]
  exact ⟨(h u v).trans (h u' v').symm, h u v⟩

/-- C3 (code evaluation at the failing store call): the entry registered
under the add_virtual_keys observation-transform group holds
`Cube2FishConfig`, not the `AddVirtualKeysConfig` schema declared
immediately above the `cs.store` call. -/
theorem add_virtual_keys_store_entry :
    storeLookup "habitat_baselines/rl/policy/obs_transforms/add_virtual_keys"
        "add_virtual_keys_base" = some SchemaNode.Cube2FishConfig ∧
      SchemaNode.Cube2FishConfig ≠ SchemaNode.AddVirtualKeysConfig := by
  constructor
  · rfl
  · decide

/-- C4: default-constructed configuration records carry exactly the
declared default literals: every field of `PPOConfig()` (spelled out in
full) and in particular `clip_param = 0.2`, `ppo_epoch = 4`,
`num_mini_batch = 2`, `lr = 2.5e-4`, `hidden_size = 512`; and
`HabitatBaselinesConfig()` has `trainer_name = "ppo"`,
`num_environments = 16`, `num_updates = 10000`, `num_checkpoints = 10`. -/
theorem default_config_literals :
    defaultPPOConfig =
      { clip_param := 0.2, ppo_epoch := 4, num_mini_batch := 2,
        value_loss_coef := 0.5, entropy_coef := 0.01, lr := 2.5e-4,
        eps := 1e-5, max_grad_norm := 0.5, num_steps := 5, use_gae := true,
        use_linear_lr_decay := false, use_linear_clip_decay := false,
        gamma := 0.99, tau := 0.95, reward_window_size := 50,
        use_normalized_advantage := false, hidden_size := 512,
        entropy_target_factor := 0.0, use_adaptive_entropy_pen := false,
        use_clipped_value_loss := true,
        use_double_buffered_sampler := false } ∧
    defaultPPOConfig.clip_param = 0.2 ∧
    defaultPPOConfig.ppo_epoch = 4 ∧
    defaultPPOConfig.num_mini_batch = 2 ∧
    defaultPPOConfig.lr = 2.5e-4 ∧
    defaultPPOConfig.hidden_size = 512 ∧
    defaultHabitatBaselinesConfig.trainer_name = "ppo" ∧
    defaultHabitatBaselinesConfig.num_environments = 16 ∧
    defaultHabitatBaselinesConfig.num_updates = 10000 ∧
    defaultHabitatBaselinesConfig.num_checkpoints = 10 :=
  ⟨rfl, rfl, rfl, rfl, rfl, rfl, rfl, rfl, rfl, rfl⟩

/-- C6: the computed numeric defaults of `ORBSLAMConfig` equal their
declared arithmetic expressions exactly: `h_obstacle_min = 0.3 * 1.25`
(which is `3/8`), `min_pts_in_obstacle = 640 / 2.0 = 320`, and
`angle_th = math.radians 15 = 15 · π / 180`. -/
theorem orbslam_numeric_defaults :
    defaultORBSLAMConfig.h_obstacle_min = 0.3 * 1.25 ∧
    defaultORBSLAMConfig.h_obstacle_min = 3 / 8 ∧
    defaultORBSLAMConfig.min_pts_in_obstacle = 640 / 2.0 ∧
    defaultORBSLAMConfig.min_pts_in_obstacle = 320 ∧
    defaultORBSLAMConfig.angle_th = math.radians 15 ∧
    defaultORBSLAMConfig.angle_th = 15 * (Real.pi / 180) := by
  have hmin : defaultORBSLAMConfig.h_obstacle_min = 0.3 * 1.25 := rfl
  have hpts : defaultORBSLAMConfig.min_pts_in_obstacle = 640 / 2.0 := rfl
  refine ⟨hmin, ?_, hpts, ?_, rfl, rfl⟩
  · rw [hmin]; norm_num
  · rw [hpts]; norm_num

/-- C7: neither file installs custom error handling: the strafe actuation
is a total function of its inputs (it yields a scene node on every input,
with no exceptional outcome in its semantics), and the hydra search-path
plugin only appends one entry (so every failure would come from the host
frameworks, not from these functions). -/
theorem no_custom_error_handling :
    (∀ (scene_node : SceneNode) (d θ n u v : ℝ),
        ∃ m : SceneNode, strafe_impl scene_node d θ n u v = m) ∧
    (∀ search_path : List SearchPathEntry,
        ∃ r, manipulate_search_path search_path = r ∧
          r = search_path ++ [⟨"habitat", "pkg://habitat_baselines/config/"⟩]) :=
  ⟨fun scene_node d θ n u v => ⟨strafe_impl scene_node d θ n u v, rfl⟩,
   fun search_path => ⟨manipulate_search_path search_path, rfl, rfl⟩⟩

/-- C9: `NoNoiseStrafe.get` and `NoiseStrafe.get` return the inherited
mapping with only the `STRAFE_LEFT` and `STRAFE_RIGHT` keys added or
overwritten (both with `move_amount = 0.25`, and `noise_amount = 0.0`
and `0.05` respectively); every other key keeps its parent value. -/
theorem strafe_space_config_get (parent : ActionSpaceConfig) :
    NoNoiseStrafe_get parent "STRAFE_LEFT" =
      some ⟨"noisy_strafe_left",
        .noisyStrafe { move_amount := 0.25, noise_amount := 0.0 }⟩ ∧
    NoNoiseStrafe_get parent "STRAFE_RIGHT" =
      some ⟨"noisy_strafe_right",
        .noisyStrafe { move_amount := 0.25, noise_amount := 0.0 }⟩ ∧
    NoiseStrafe_get parent "STRAFE_LEFT" =
      some ⟨"noisy_strafe_left",
        .noisyStrafe { move_amount := 0.25, noise_amount := 0.05 }⟩ ∧
    NoiseStrafe_get parent "STRAFE_RIGHT" =
      some ⟨"noisy_strafe_right",
        .noisyStrafe { move_amount := 0.25, noise_amount := 0.05 }⟩ ∧
    ∀ k : String, k ≠ "STRAFE_LEFT" → k ≠ "STRAFE_RIGHT" →
      NoNoiseStrafe_get parent k = parent k ∧
        NoiseStrafe_get parent k = parent k := by
  have hne : ("STRAFE_LEFT" : String) ≠ "STRAFE_RIGHT" := by decide
  refine ⟨?_, ?_, ?_, ?_, fun k hL hR => ⟨?_, ?_⟩⟩
  · simp [NoNoiseStrafe_get, dictSet, hne]
  · simp [NoNoiseStrafe_get, dictSet]
  · simp [NoiseStrafe_get, dictSet, hne]
  · simp [NoiseStrafe_get, dictSet]
  · simp [NoNoiseStrafe_get, dictSet, hL, hR]
  · simp [NoiseStrafe_get, dictSet, hL, hR]

/-- Witness for C9: with an empty parent mapping, a key other than the two
strafe keys (here `"TURN_LEFT"`) is left untouched. -/
theorem strafe_space_config_get_witness :
    (("TURN_LEFT" : String) ≠ "STRAFE_LEFT" ∧
      ("TURN_LEFT" : String) ≠ "STRAFE_RIGHT") ∧
    (NoNoiseStrafe_get (fun _ => none) "TURN_LEFT" = none ∧
      NoiseStrafe_get (fun _ => none) "TURN_LEFT" = none) :=
  ⟨⟨by decide, by decide⟩,
   (strafe_space_config_get (fun _ => none)).2.2.2.2 "TURN_LEFT"
     (by decide) (by decide)⟩

/-- C10: `h_obstacle_max` carries no type annotation in the `ORBSLAMConfig`
class body, so by Python dataclass semantics it is not a dataclass field
(and hence absent from the registered schema), though the class-body
assignment does exist; the annotated `h_obstacle_min` is a field. -/
theorem h_obstacle_max_not_a_field :
    "h_obstacle_max" ∉ dataclassFieldNames ORBSLAMClassBody ∧
    ("h_obstacle_max", false) ∈ ORBSLAMClassBody ∧
    "h_obstacle_min" ∈ dataclassFieldNames ORBSLAMClassBody := by
  decide
